import Mathlib

/-!
Verification of the ID-reconciliation and merge pipeline of
`Working_OneAPICall.py` (Premier League fantasy-football dashboard).

The script fetches `league_entries` and `standings` from an HTTP API,
coerces the join keys to strings, reports identifier mismatches, filters
both sides to the identifier intersection, left-joins standings onto a
projection of the entries, normalizes the `total` column to a number
(failed coercions become 0), and finally selects a points leader via
`idxmax` guarded by `total.max() > 0`.

The embedding below models that pipeline over lists of typed records.
Raw JSON scalars that may arrive as either numbers or strings (the join
keys and the `total` column) are modelled by `JVal`; `pd.astype(str)` is
`pyStr`, and `pd.to_numeric(errors := coerce).fillna(0)` is `coerceTotal`
(numbers in the feed are integers, so the numeric domain is `Int`).
A `pd.DataFrame` built from a non-empty list of records has one column
per record field, while `pd.DataFrame []` has no columns at all, so
selecting `league_entry` (line 45) or `id` (line 46) on an empty input
list raises a `KeyError`; the pipeline entry point `reconcile` returns
`Except` to capture exactly that crash.
-/

namespace FantasyFooty

/-- A raw JSON scalar as it can appear in the API payload: an integer, a
string, or a null/missing value. -/
inductive JVal where
  | jint (n : Int)
  | jstr (s : String)
  | jnull
deriving DecidableEq, Repr

/-- Python `str()` applied to a cell, as `astype(str)` does columnwise. -/
def pyStr : JVal → String
  | .jint n => toString n
  | .jstr s => s
  | .jnull => "None"

/-- One element of the `league_entries` array (a `LeagueEntry` record).
The join key `id` may arrive as a number or a string. -/
structure LeagueEntry where
  id : JVal
  entry_name : String
  player_first_name : String
  player_last_name : String
  joined_time : String
deriving DecidableEq, Repr

/-- One element of the `standings` array (a `StandingRecord`).
`league_entry` is the foreign key into `LeagueEntry.id`; `total` may be a
number, a numeric or garbage string, or null. -/
structure StandingRecord where
  league_entry : JVal
  total : JVal
  matches_won : Int
  matches_lost : Int
  matches_drawn : Int
deriving DecidableEq, Repr

/-- Parse an optionally signed decimal integer the way `pd.to_numeric`
does on a string cell (the integer fragment: the feed totals are
integers); any other string fails. -/
def parseIntStr (s : String) : Option Int :=
  let go : List Char → Option Int := fun ds =>
    if ds.isEmpty then none
    else if ds.all (·.isDigit) then
      some (ds.foldl (fun acc c => acc * 10 + (c.toNat - 48)) 0 : Nat)
    else none
  match s.data with
  | '-' :: rest => (go rest).map (fun n => -n)
  | '+' :: rest => go rest
  | ds => go ds

/-- `pd.to_numeric(v, errors := coerce)` on one cell: numbers pass
through, numeric strings parse, everything else becomes NaN (`none`). -/
def pyToNumeric : JVal → Option Int
  | .jint n => some n
  | .jstr s => parseIntStr s
  | .jnull => none

/-- Line 85: `pd.to_numeric(merged_df[total], errors := coerce).fillna(0)`
on one cell — a failed coercion or a missing value becomes `0`. -/
def coerceTotal (v : JVal) : Int := (pyToNumeric v).getD 0

/-- Line 45: the string-coerced join key of a standing row. -/
def standingKey (s : StandingRecord) : String := pyStr s.league_entry

/-- Line 46: the string-coerced join key of an entry row. -/
def entryKey (e : LeagueEntry) : String := pyStr e.id

/-- Line 49: `set(standings_df[league_entry].unique())`. -/
def standings_ids (ss : List StandingRecord) : Finset String :=
  (ss.map standingKey).toFinset

/-- Line 50: `set(league_entries_df[id].unique())`. -/
def entries_ids (es : List LeagueEntry) : Finset String :=
  (es.map entryKey).toFinset

/-- Line 52: `standings_ids - entries_ids`. -/
def missing_in_entries (es : List LeagueEntry) (ss : List StandingRecord) :
    Finset String :=
  standings_ids ss \ entries_ids es

/-- Line 53: `entries_ids - standings_ids`. -/
def missing_in_standings (es : List LeagueEntry) (ss : List StandingRecord) :
    Finset String :=
  entries_ids es \ standings_ids ss

/-- Line 61: standings rows whose `league_entry` is in `entries_ids`. -/
def valid_standings (es : List LeagueEntry) (ss : List StandingRecord) :
    List StandingRecord :=
  ss.filter (fun s => decide (standingKey s ∈ entries_ids es))

/-- Line 62: entry rows whose `id` is in `standings_ids`. -/
def valid_entries (es : List LeagueEntry) (ss : List StandingRecord) :
    List LeagueEntry :=
  es.filter (fun e => decide (entryKey e ∈ standings_ids ss))

/-- One row of `merged_df`: the standing columns, plus the five projected
entry columns, which a left join leaves as NaN (`none`) when the right
side has no match. `τ` is the type of the `total` column: `JVal` right
after the merge, `Int` after line 85 normalizes it. -/
structure MergedRow (τ : Type) where
  league_entry : String
  total : τ
  matches_won : Int
  matches_lost : Int
  matches_drawn : Int
  id : Option String
  entry_name : Option String
  joined_time : Option String
  player_first_name : Option String
  player_last_name : Option String
deriving DecidableEq, Repr

/-- The merged row for a standing row and a matching entry row. -/
def joinRow (s : StandingRecord) (e : LeagueEntry) : MergedRow JVal :=
  { league_entry := standingKey s
    total := s.total
    matches_won := s.matches_won
    matches_lost := s.matches_lost
    matches_drawn := s.matches_drawn
    id := some (entryKey e)
    entry_name := some e.entry_name
    joined_time := some e.joined_time
    player_first_name := some e.player_first_name
    player_last_name := some e.player_last_name }

/-- The merged row a left join emits for a standing row with no match on
the right: the entry columns are NaN (`none`). -/
def unmatchedRow (s : StandingRecord) : MergedRow JVal :=
  { league_entry := standingKey s
    total := s.total
    matches_won := s.matches_won
    matches_lost := s.matches_lost
    matches_drawn := s.matches_drawn
    id := none
    entry_name := none
    joined_time := none
    player_first_name := none
    player_last_name := none }

/-- Lines 72-75: `valid_standings_df.merge(valid_entries_df[...],
left_on := league_entry, right_on := id, how := left)`. Each left row
yields one output row per matching right row, in order, or a single row
with NaN entry columns when nothing matches. -/
def mergeLeft (vs : List StandingRecord) (ve : List LeagueEntry) :
    List (MergedRow JVal) :=
  vs.flatMap (fun s =>
    let ms := ve.filter (fun e => entryKey e == standingKey s)
    if ms.isEmpty then [unmatchedRow s] else ms.map (joinRow s))

/-- The same merge with `how := inner`: unmatched left rows are dropped
instead of padded with NaN. Used to state that after the Step 3 filtering
the left join coincides with the inner join. -/
def mergeInner (vs : List StandingRecord) (ve : List LeagueEntry) :
    List (MergedRow JVal) :=
  vs.flatMap (fun s =>
    (ve.filter (fun e => entryKey e == standingKey s)).map (joinRow s))

/-- Line 85 applied to one merged row: the `total` column becomes
numeric, failed coercions and NaNs becoming `0`. -/
def normalizeRow (r : MergedRow JVal) : MergedRow Int :=
  { league_entry := r.league_entry
    total := coerceTotal r.total
    matches_won := r.matches_won
    matches_lost := r.matches_lost
    matches_drawn := r.matches_drawn
    id := r.id
    entry_name := r.entry_name
    joined_time := r.joined_time
    player_first_name := r.player_first_name
    player_last_name := r.player_last_name }

/-- The merged table before numeric normalization, as produced from the
raw inputs: filter both sides (lines 61-62), then left-join (lines
72-75). -/
def merged_rows (es : List LeagueEntry) (ss : List StandingRecord) :
    List (MergedRow JVal) :=
  mergeLeft (valid_standings es ss) (valid_entries es ss)

/-- The reconciled table the dashboard consumes: `merged_rows` with the
`total` column normalized (line 85). -/
def pipelineRows (es : List LeagueEntry) (ss : List StandingRecord) :
    List (MergedRow Int) :=
  (merged_rows es ss).map normalizeRow

/-- `Series.max()` over a non-empty column (`0` on the empty column,
which the script never asks for). -/
def seriesMax (ts : List Int) : Int := ts.maximum.getD 0

/-- `Series.idxmax()` on a default integer index: the first position
whose value equals the column maximum. -/
def idxmaxList (ts : List Int) : Nat :=
  ts.findIdx (fun t => t == seriesMax ts)

/-- Line 169: `merged_df.loc[merged_df[total].idxmax()]`, the row at the
first position attaining the maximal `total`. -/
def topScorer (rows : List (MergedRow Int)) : Option (MergedRow Int) :=
  rows[idxmaxList (rows.map (fun r => r.total))]?

/-- A warning emitted by lines 55-58, listing the offending identifiers. -/
inductive Wrn where
  | idsInStandingsNotInEntries (ids : Finset String)
  | idsInEntriesNotInStandings (ids : Finset String)
deriving DecidableEq

/-- An error message shown by `st.error` in lines 65-78. -/
inductive UiError where
  | noValidStandings
  | noValidEntries
  | emptyMergedData
deriving DecidableEq, Repr

/-- The crash raised when a column is selected on a DataFrame that does
not have it; `pd.DataFrame []` has no columns at all. -/
inductive PyError where
  | keyError (col : String)
deriving DecidableEq, Repr

/-- Everything one render pass of the reconciler surfaces: the warnings
(lines 55-58), the `st.error` messages (lines 65-78), the reconciled
rows (empty when an error path skipped the merge), the points-leader row
when the line-168 guard passes, and whether the no-valid-data message of
line 174 was shown instead. -/
structure ReconcileOutput where
  warnings : List Wrn
  errors : List UiError
  rows : List (MergedRow Int)
  leader : Option (MergedRow Int)
  noLeaderMsg : Bool
deriving DecidableEq

/-- Lines 55-58: the warnings the pass emits — one per non-empty
identifier difference, listing the offending identifiers. -/
def mismatchWarnings (es : List LeagueEntry) (ss : List StandingRecord) :
    List Wrn :=
  (if missing_in_entries es ss = ∅ then []
   else [Wrn.idsInStandingsNotInEntries (missing_in_entries es ss)]) ++
  (if missing_in_standings es ss = ∅ then []
   else [Wrn.idsInEntriesNotInStandings (missing_in_standings es ss)])

/-- Lines 65-78: the `st.error` messages of the pass, in emission order.
The empty-merge message can only appear when both filtered sides are
non-empty (line 71 guards the merge). -/
def reconcileErrors (es : List LeagueEntry) (ss : List StandingRecord) :
    List UiError :=
  (if (valid_standings es ss).isEmpty then [UiError.noValidStandings] else []) ++
  (if (valid_entries es ss).isEmpty then [UiError.noValidEntries] else []) ++
  (if !(valid_standings es ss).isEmpty && !(valid_entries es ss).isEmpty &&
      (merged_rows es ss).isEmpty
   then [UiError.emptyMergedData] else [])

/-- Whether the display block of lines 79-174 runs: both filtered sides
are non-empty (line 71) and the merged frame is non-empty (line 77). -/
def mergedRan (es : List LeagueEntry) (ss : List StandingRecord) : Bool :=
  !(valid_standings es ss).isEmpty && !(valid_entries es ss).isEmpty &&
  !(merged_rows es ss).isEmpty

/-- The reconciled rows the pass hands to the charts and the leader
metric: the normalized merged table when the display block runs, nothing
otherwise. -/
def reconcileRows (es : List LeagueEntry) (ss : List StandingRecord) :
    List (MergedRow Int) :=
  if mergedRan es ss then pipelineRows es ss else []

/-- Line 168: `not merged_df.empty and merged_df[total].max() > 0`,
evaluated on the normalized table. -/
def leaderGuard (es : List LeagueEntry) (ss : List StandingRecord) : Bool :=
  !(reconcileRows es ss).isEmpty &&
  decide (0 < seriesMax ((reconcileRows es ss).map (fun r => r.total)))

/-- Lines 168-172: the points-leader row, shown only when the display
block ran and the line-168 guard passed. -/
def leaderSelected (es : List LeagueEntry) (ss : List StandingRecord) :
    Option (MergedRow Int) :=
  if mergedRan es ss && leaderGuard es ss then topScorer (reconcileRows es ss)
  else none

/-- Line 174: the no-valid-data message, shown when the display block
ran but the line-168 guard failed. -/
def noLeaderMsgShown (es : List LeagueEntry) (ss : List StandingRecord) :
    Bool :=
  mergedRan es ss && !leaderGuard es ss

/-- Lines 44-174: the whole reconciliation pass. Selecting the
`league_entry` column (line 45) on a frame built from an empty standings
list raises `KeyError`, and likewise `id` (line 46) for empty entries;
otherwise the pass always completes — warnings never stop it — and
surfaces the warnings, errors, rows, leader and no-leader message
defined above. -/
def reconcile (es : List LeagueEntry) (ss : List StandingRecord) :
    Except PyError ReconcileOutput :=
  if ss.isEmpty then .error (.keyError "league_entry")
  else if es.isEmpty then .error (.keyError "id")
  else .ok { warnings := mismatchWarnings es ss
             errors := reconcileErrors es ss
             rows := reconcileRows es ss
             leader := leaderSelected es ss
             noLeaderMsg := noLeaderMsgShown es ss }

/-- The parsed body of a 200 response from
`/api/league/{league_id}/details`. -/
structure ApiData where
  league_name : String
  league_entries : List LeagueEntry
  standings : List StandingRecord
deriving DecidableEq, Repr

/-- The HTTP response the GET of line 17 produced. -/
structure HttpResponse where
  status_code : Nat
  body : ApiData
deriving DecidableEq, Repr

/-- Lines 15-22: `fetch_data` returns the parsed JSON on status 200 and
`None` otherwise. -/
def fetch_data (resp : HttpResponse) : Option ApiData :=
  if resp.status_code = 200 then some resp.body else none

/-- Line 21: a user-visible `st.error` is shown exactly when the status
is not 200. -/
def fetchErrorShown (resp : HttpResponse) : Bool :=
  resp.status_code != 200

/-- Lines 24-176: one render pass. The processing block (and with it the
reconciler) runs only under `if data:`; with no data the pass ends at the
line-176 prompt and the reconciler is never invoked (`none`). -/
def renderPass (resp : HttpResponse) :
    Option (Except PyError ReconcileOutput) :=
  (fetch_data resp).map (fun d => reconcile d.league_entries d.standings)

/-! Concrete records used to instantiate the theorems below: the two
entries and two standings of the end-to-end scenario of the spec, a
standing with a negative numeric total, a pair of records whose keys
agree only after string coercion, and two canned HTTP responses. -/

/-- Entry with id `"1"` and name `"A"` from the end-to-end scenario. -/
def sampleEntryA : LeagueEntry :=
  { id := .jstr "1", entry_name := "A", player_first_name := "Alice"
    player_last_name := "Archer", joined_time := "2024-08-01" }

/-- Entry with id `"2"` and name `"B"` from the end-to-end scenario. -/
def sampleEntryB : LeagueEntry :=
  { id := .jstr "2", entry_name := "B", player_first_name := "Bob"
    player_last_name := "Barker", joined_time := "2024-08-02" }

/-- Standing with `league_entry` `"1"` and total `"50"` from the
end-to-end scenario. -/
def sampleStanding1 : StandingRecord :=
  { league_entry := .jstr "1", total := .jstr "50", matches_won := 3
    matches_lost := 1, matches_drawn := 0 }

/-- Standing with `league_entry` `"3"` and total `"30"` from the
end-to-end scenario. -/
def sampleStanding3 : StandingRecord :=
  { league_entry := .jstr "3", total := .jstr "30", matches_won := 1
    matches_lost := 2, matches_drawn := 1 }

/-- A standing whose numeric total is negative. -/
def negTotalStanding : StandingRecord :=
  { league_entry := .jstr "1", total := .jint (-1), matches_won := 0
    matches_lost := 0, matches_drawn := 0 }

/-- An entry whose raw id is the number `7`. -/
def entryIntId7 : LeagueEntry :=
  { id := .jint 7, entry_name := "C", player_first_name := "Cara"
    player_last_name := "Cole", joined_time := "2024-08-03" }

/-- A standing whose raw key is the string `"7"`: it references
`entryIntId7` only after both keys are coerced to strings. -/
def standingStrId7 : StandingRecord :=
  { league_entry := .jstr "7", total := .jint 10, matches_won := 2
    matches_lost := 0, matches_drawn := 0 }

/-- A parsed response body holding one entry and one standing. -/
def sampleApiData : ApiData :=
  { league_name := "Sample League", league_entries := [sampleEntryA]
    standings := [sampleStanding1] }

/-- A failed HTTP response (status 404). -/
def resp404 : HttpResponse := { status_code := 404, body := sampleApiData }

/-- A successful HTTP response (status 200). -/
def resp200 : HttpResponse := { status_code := 200, body := sampleApiData }

/-- A reconciled row with the given total, used to exercise the leader
tie-break. -/
def flatRow (n : Int) : MergedRow Int :=
  { league_entry := "k", total := n, matches_won := 0, matches_lost := 0
    matches_drawn := 0, id := some "k", entry_name := some "x"
    joined_time := some "t", player_first_name := some "p"
    player_last_name := some "q" }

/-- The output of the pass on `[sampleEntryA]` and `[sampleStanding1]`. -/
def reconOutPos : ReconcileOutput :=
  { warnings := mismatchWarnings [sampleEntryA] [sampleStanding1]
    errors := reconcileErrors [sampleEntryA] [sampleStanding1]
    rows := reconcileRows [sampleEntryA] [sampleStanding1]
    leader := leaderSelected [sampleEntryA] [sampleStanding1]
    noLeaderMsg := noLeaderMsgShown [sampleEntryA] [sampleStanding1] }

/-! Helper lemmas shared by the claim theorems. -/

/-- Every filtered standing row has a matching row among the filtered
entries: its key is in `entries_ids`, and the witness entry survives the
entry-side filter because the standing's own key is in `standings_ids`. -/
theorem exists_valid_match (es : List LeagueEntry) (ss : List StandingRecord)
    {s : StandingRecord} (hs : s ∈ valid_standings es ss) :
    ∃ e ∈ valid_entries es ss, entryKey e = standingKey s := by
  rw [valid_standings, List.mem_filter] at hs
  obtain ⟨hss, hkey⟩ := hs
  have hmem : standingKey s ∈ entries_ids es := of_decide_eq_true hkey
  rw [entries_ids, List.mem_toFinset, List.mem_map] at hmem
  obtain ⟨e, he, hek⟩ := hmem
  refine ⟨e, ?_, hek⟩
  rw [valid_entries, List.mem_filter]
  refine ⟨he, decide_eq_true ?_⟩
  rw [standings_ids, List.mem_toFinset, List.mem_map, hek]
  exact ⟨s, hss, rfl⟩

/-- After the Step 3 filtering, the left join takes the matched branch
for every left row, so it equals the inner join. -/
theorem merged_rows_eq_inner (es : List LeagueEntry)
    (ss : List StandingRecord) :
    merged_rows es ss =
      mergeInner (valid_standings es ss) (valid_entries es ss) := by
  rw [merged_rows, mergeLeft, mergeInner]
  refine List.flatMap_congr (fun s hs => ?_)
  obtain ⟨e, hev, hek⟩ := exists_valid_match es ss hs
  have hmem : e ∈ (valid_entries es ss).filter
      (fun e => entryKey e == standingKey s) :=
    List.mem_filter.mpr ⟨hev, by simp [hek]⟩
  have hne : ((valid_entries es ss).filter
      (fun e => entryKey e == standingKey s)).isEmpty = false :=
    List.isEmpty_eq_false.mpr (List.ne_nil_of_mem hmem)
  simp [hne]

/-- Every merged row comes from a filtered standing row and a filtered
entry row whose coerced keys agree. -/
theorem mem_merged_rows {es : List LeagueEntry} {ss : List StandingRecord}
    {r : MergedRow JVal} (hr : r ∈ merged_rows es ss) :
    ∃ s ∈ valid_standings es ss, ∃ e ∈ valid_entries es ss,
      entryKey e = standingKey s ∧ r = joinRow s e := by
  rw [merged_rows_eq_inner, mergeInner, List.mem_flatMap] at hr
  obtain ⟨s, hs, hr⟩ := hr
  rw [List.mem_map] at hr
  obtain ⟨e, he, hre⟩ := hr
  rw [List.mem_filter] at he
  obtain ⟨hev, hbeq⟩ := he
  exact ⟨s, hs, e, hev, beq_iff_eq.mp hbeq, hre.symm⟩

/-- The standings-side warning is in the emitted list exactly when its
difference set is non-empty. -/
theorem mismatchWarnings_entries_iff (es : List LeagueEntry)
    (ss : List StandingRecord) :
    Wrn.idsInStandingsNotInEntries (missing_in_entries es ss) ∈
        mismatchWarnings es ss ↔ missing_in_entries es ss ≠ ∅ := by
  rw [mismatchWarnings]
  by_cases h1 : missing_in_entries es ss = ∅ <;>
    by_cases h2 : missing_in_standings es ss = ∅ <;> simp [h1, h2]

/-- The entries-side warning is in the emitted list exactly when its
difference set is non-empty. -/
theorem mismatchWarnings_standings_iff (es : List LeagueEntry)
    (ss : List StandingRecord) :
    Wrn.idsInEntriesNotInStandings (missing_in_standings es ss) ∈
        mismatchWarnings es ss ↔ missing_in_standings es ss ≠ ∅ := by
  rw [mismatchWarnings]
  by_cases h1 : missing_in_entries es ss = ∅ <;>
    by_cases h2 : missing_in_standings es ss = ∅ <;> simp [h1, h2]

/-- On non-empty inputs the column selections succeed and the pass
returns its surfaced outputs. -/
theorem reconcile_eq_ok {es : List LeagueEntry} {ss : List StandingRecord}
    (he : es ≠ []) (hs : ss ≠ []) :
    reconcile es ss =
      .ok { warnings := mismatchWarnings es ss
            errors := reconcileErrors es ss
            rows := reconcileRows es ss
            leader := leaderSelected es ss
            noLeaderMsg := noLeaderMsgShown es ss } := by
  rw [reconcile, if_neg (by simp [List.isEmpty_iff, hs]),
    if_neg (by simp [List.isEmpty_iff, he])]

/-- Inversion: a successful pass surfaces exactly the outputs defined
componentwise above. -/
theorem reconcile_ok_inv {es : List LeagueEntry} {ss : List StandingRecord}
    {out : ReconcileOutput} (h : reconcile es ss = .ok out) :
    out = { warnings := mismatchWarnings es ss
            errors := reconcileErrors es ss
            rows := reconcileRows es ss
            leader := leaderSelected es ss
            noLeaderMsg := noLeaderMsgShown es ss } := by
  rw [reconcile] at h
  split at h
  · exact Except.noConfusion h
  · split at h
    · exact Except.noConfusion h
    · injection h with h
      exact h.symm

/-- If the pass surfaced any rows, the display block ran. -/
theorem mergedRan_of_rows_ne_nil {es : List LeagueEntry}
    {ss : List StandingRecord} (h : reconcileRows es ss ≠ []) :
    mergedRan es ss = true := by
  cases hb : mergedRan es ss with
  | false => rw [reconcileRows, hb] at h; simp at h
  | true => rfl

/-- `idxmaxList` is the first index attaining the maximum of a
non-empty column. -/
theorem idxmax_spec (ts : List Int) (h : ts ≠ []) :
    ∃ hlt : idxmaxList ts < ts.length,
      ts[idxmaxList ts] = seriesMax ts ∧
      (∀ t ∈ ts, t ≤ seriesMax ts) ∧
      (∀ j, j < idxmaxList ts → ∀ t, ts[j]? = some t → t < seriesMax ts) := by
  obtain ⟨m, hm⟩ : ∃ m : Int, ts.maximum = (m : WithBot Int) := by
    cases hmx : ts.maximum with
    | bot => exact absurd hmx (List.maximum_ne_bot_of_ne_nil h)
    | coe m => exact ⟨m, rfl⟩
  have hsm : seriesMax ts = m := by rw [seriesMax, hm]; rfl
  have hub : ∀ t ∈ ts, t ≤ seriesMax ts := by
    intro t ht
    rw [hsm]
    exact List.le_maximum_of_mem ht hm
  have hident : ∃ t ∈ ts, (t == seriesMax ts) = true := by
    refine ⟨m, List.maximum_mem hm, ?_⟩
    rw [hsm]
    exact beq_self_eq_true m
  have hlt : List.findIdx (fun t => t == seriesMax ts) ts < ts.length :=
    List.findIdx_lt_length_of_exists hident
  refine ⟨hlt, ?_, hub, ?_⟩
  · exact beq_iff_eq.mp (@List.findIdx_getElem _ (fun t => t == seriesMax ts) ts hlt)
  · intro j hj t ht
    obtain ⟨hjl, hjv⟩ := List.getElem?_eq_some_iff.mp ht
    have hfalse : (ts[j] == seriesMax ts) = false :=
      List.not_of_lt_findIdx (show j < List.findIdx (fun t => t == seriesMax ts) ts from hj)
    have hne : ts[j] ≠ seriesMax ts := by
      intro hc
      rw [hc, beq_self_eq_true (seriesMax ts)] at hfalse
      exact Bool.noConfusion hfalse
    have hle : ts[j] ≤ seriesMax ts := hub _ (List.getElem_mem hjl)
    rw [← hjv]
    exact lt_of_le_of_ne hle hne

/-- `topScorer` returns the first row attaining the maximal total: it is
a member, its total bounds every row's total, and every strictly earlier
row has a strictly smaller total. -/
theorem topScorer_spec (rows : List (MergedRow Int)) (h : rows ≠ []) :
    ∃ r, topScorer rows = some r ∧ r ∈ rows ∧
      r.total = seriesMax (rows.map (fun x => x.total)) ∧
      (∀ q ∈ rows, q.total ≤ r.total) ∧
      (∀ j, j < idxmaxList (rows.map (fun x => x.total)) →
        ∀ q, rows[j]? = some q → q.total < r.total) := by
  have htsne : rows.map (fun x => x.total) ≠ [] := by simpa using h
  obtain ⟨hlt, hmax, hub, hfirst⟩ := idxmax_spec (rows.map (fun x => x.total)) htsne
  have hlt' : idxmaxList (rows.map (fun x => x.total)) < rows.length := by
    rw [← List.length_map rows (fun x => x.total)]
    exact hlt
  have hval : rows[idxmaxList (rows.map (fun x => x.total))].total
      = seriesMax (rows.map (fun x => x.total)) := by
    rw [← hmax]
    exact (List.getElem_map _).symm
  refine ⟨rows[idxmaxList (rows.map (fun x => x.total))], ?_, ?_, hval, ?_, ?_⟩
  · rw [topScorer]
    exact List.getElem?_eq_getElem hlt'
  · exact List.getElem_mem hlt'
  · intro q hq
    have hqm : q.total ∈ rows.map (fun x => x.total) :=
      List.mem_map.mpr ⟨q, hq, rfl⟩
    rw [hval]
    exact hub _ hqm
  · intro j hj q hq
    obtain ⟨hjl, hjv⟩ := List.getElem?_eq_some_iff.mp hq
    have hjl' : j < (rows.map (fun x => x.total)).length := by
      rw [List.length_map]
      exact hjl
    have hqt : (rows.map (fun x => x.total))[j]? = some q.total := by
      rw [List.getElem?_eq_getElem hjl', List.getElem_map, hjv]
    rw [hval]
    exact hfirst j hj q.total hqt

/-- Claim C1: on entries `A` (id "1") and `B` (id "2") against standings
for ids "1" (total "50") and "3" (total "30"), the reconciler computes
`missing_in_entries = {"3"}` and `missing_in_standings = {"2"}`, and the
filtered join holds exactly one row — id "1" with numeric total 50. -/
theorem claim1_end_to_end_scenario :
    missing_in_entries [sampleEntryA, sampleEntryB]
        [sampleStanding1, sampleStanding3] = {"3"} ∧
    missing_in_standings [sampleEntryA, sampleEntryB]
        [sampleStanding1, sampleStanding3] = {"2"} ∧
    pipelineRows [sampleEntryA, sampleEntryB]
        [sampleStanding1, sampleStanding3] =
      [{ league_entry := "1", total := 50, matches_won := 3
         matches_lost := 1, matches_drawn := 0, id := some "1"
         entry_name := some "A", joined_time := some "2024-08-01"
         player_first_name := some "Alice"
         player_last_name := some "Archer" }] :=
  ⟨by decide, by decide, by decide⟩

/-- Claim C2: after the Step 3 filtering, the Step 4 left join has no
unmatched rows — it equals the inner join, and every result row has its
five entry columns populated. -/
theorem claim2_filtered_join_total (es : List LeagueEntry)
    (ss : List StandingRecord) :
    merged_rows es ss =
      mergeInner (valid_standings es ss) (valid_entries es ss) ∧
    ∀ r ∈ merged_rows es ss,
      r.id.isSome ∧ r.entry_name.isSome ∧ r.joined_time.isSome ∧
      r.player_first_name.isSome ∧ r.player_last_name.isSome := by
  refine ⟨merged_rows_eq_inner es ss, ?_⟩
  intro r hr
  obtain ⟨s, hs, e, he, hk, hre⟩ := mem_merged_rows hr
  subst hre
  simp [joinRow]

/-- Witness for C2 at the end-to-end scenario: the joined row of
standing "1" and entry "A" is a merged row with all entry columns
populated, and the join equals the inner join. -/
theorem claim2_witness :
    (merged_rows [sampleEntryA, sampleEntryB] [sampleStanding1, sampleStanding3]
      = mergeInner
          (valid_standings [sampleEntryA, sampleEntryB]
            [sampleStanding1, sampleStanding3])
          (valid_entries [sampleEntryA, sampleEntryB]
            [sampleStanding1, sampleStanding3])) ∧
    ((joinRow sampleStanding1 sampleEntryA).id.isSome ∧
     (joinRow sampleStanding1 sampleEntryA).entry_name.isSome ∧
     (joinRow sampleStanding1 sampleEntryA).joined_time.isSome ∧
     (joinRow sampleStanding1 sampleEntryA).player_first_name.isSome ∧
     (joinRow sampleStanding1 sampleEntryA).player_last_name.isSome) :=
  ⟨(claim2_filtered_join_total [sampleEntryA, sampleEntryB]
      [sampleStanding1, sampleStanding3]).1,
   (claim2_filtered_join_total [sampleEntryA, sampleEntryB]
      [sampleStanding1, sampleStanding3]).2
     (joinRow sampleStanding1 sampleEntryA) (by decide)⟩

/-- Claim C3: the numeric normalization maps `"42"` to 42, `"abc"` to 0
and null to 0, and in general every value whose coercion fails becomes 0
with no error surfaced. -/
theorem claim3_total_normalization :
    coerceTotal (.jstr "42") = 42 ∧ coerceTotal (.jstr "abc") = 0 ∧
    coerceTotal .jnull = 0 ∧
    ∀ v, pyToNumeric v = none → coerceTotal v = 0 := by
  refine ⟨by decide, by decide, by decide, ?_⟩
  intro v hv
  rw [coerceTotal, hv]
  rfl

/-- Witness for C3: the string `"n/a"` fails coercion and becomes 0. -/
theorem claim3_witness :
    pyToNumeric (.jstr "n/a") = none ∧ coerceTotal (.jstr "n/a") = 0 :=
  ⟨by decide, claim3_total_normalization.2.2.2 (.jstr "n/a") (by decide)⟩

/-- Counterexample to C4 as stated: on the input pair (entries `[]`,
standings `[standing "1"]`) the difference set `missing_in_entries` is
non-empty, yet the pass crashes with `KeyError` at the line-46 column
selection — no warning is emitted and processing does not continue, so
the claim fails for this pair of input sequences. -/
theorem claim4_counterexample :
    missing_in_entries [] [sampleStanding1] ≠ ∅ ∧
    reconcile [] [sampleStanding1] = .error (.keyError "id") :=
  ⟨by decide, rfl⟩

/-- Claim C4 (amended to non-empty inputs): the union of the two
reported difference sets equals the symmetric difference of the
identifier sets; each warning is emitted exactly when its set is
non-empty; and the pass still completes with its rows in either case. -/
theorem claim4_mismatch_reporting (es : List LeagueEntry)
    (ss : List StandingRecord) (he : es ≠ []) (hs : ss ≠ []) :
    missing_in_entries es ss ∪ missing_in_standings es ss
      = symmDiff (standings_ids ss) (entries_ids es) ∧
    ∃ out, reconcile es ss = .ok out ∧
      (Wrn.idsInStandingsNotInEntries (missing_in_entries es ss) ∈ out.warnings
        ↔ missing_in_entries es ss ≠ ∅) ∧
      (Wrn.idsInEntriesNotInStandings (missing_in_standings es ss) ∈ out.warnings
        ↔ missing_in_standings es ss ≠ ∅) ∧
      out.rows = reconcileRows es ss := by
  refine ⟨?_, ⟨_, reconcile_eq_ok he hs, ?_, ?_, rfl⟩⟩
  · simp [missing_in_entries, missing_in_standings, symmDiff_def,
      Finset.sup_eq_union]
  · exact mismatchWarnings_entries_iff es ss
  · exact mismatchWarnings_standings_iff es ss

/-- Witness for C4 at one entry (id "1") against one standing (id "3"):
both difference sets are non-empty, both warnings are emitted, and the
pass completes. -/
theorem claim4_witness :
    ([sampleEntryA] ≠ ([] : List LeagueEntry)) ∧
    ([sampleStanding3] ≠ ([] : List StandingRecord)) ∧
    (missing_in_entries [sampleEntryA] [sampleStanding3] ∪
        missing_in_standings [sampleEntryA] [sampleStanding3]
      = symmDiff (standings_ids [sampleStanding3]) (entries_ids [sampleEntryA]) ∧
    ∃ out, reconcile [sampleEntryA] [sampleStanding3] = .ok out ∧
      (Wrn.idsInStandingsNotInEntries
          (missing_in_entries [sampleEntryA] [sampleStanding3]) ∈ out.warnings
        ↔ missing_in_entries [sampleEntryA] [sampleStanding3] ≠ ∅) ∧
      (Wrn.idsInEntriesNotInStandings
          (missing_in_standings [sampleEntryA] [sampleStanding3]) ∈ out.warnings
        ↔ missing_in_standings [sampleEntryA] [sampleStanding3] ≠ ∅) ∧
      out.rows = reconcileRows [sampleEntryA] [sampleStanding3]) :=
  ⟨by decide, by decide,
   claim4_mismatch_reporting [sampleEntryA] [sampleStanding3]
     (by decide) (by decide)⟩

/-- Claim C5 (code bug): on an empty standings input the pass raises
`KeyError` at the line-45 column selection instead of reporting the
empty-result condition the spec promises; the filtered-to-empty case, by
contrast, is reported as the spec says, with no rows and no derived
statistics. -/
theorem claim5_empty_standings_keyerror :
    reconcile [sampleEntryA] [] = .error (.keyError "league_entry") ∧
    ∃ out, reconcile [sampleEntryA] [sampleStanding3] = .ok out ∧
      out.errors = [UiError.noValidStandings, UiError.noValidEntries] ∧
      out.rows = [] ∧ out.leader = none ∧ out.noLeaderMsg = false :=
  ⟨rfl, ⟨_, reconcile_eq_ok (by decide) (by decide),
    by decide, by decide, by decide, by decide⟩⟩

/-- Claim C6: a non-200 response yields a user-visible failure, no data,
and a render pass on which the reconciler is never invoked; a 200
response yields the parsed body. -/
theorem claim6_fetch_status_gate (resp : HttpResponse) :
    (resp.status_code ≠ 200 →
      fetch_data resp = none ∧ fetchErrorShown resp = true ∧
      renderPass resp = none) ∧
    (resp.status_code = 200 →
      fetch_data resp = some resp.body ∧ fetchErrorShown resp = false) := by
  constructor
  · intro h
    have hf : fetch_data resp = none := by rw [fetch_data, if_neg h]
    refine ⟨hf, ?_, ?_⟩
    · simp [fetchErrorShown, bne_iff_ne, h]
    · rw [renderPass, hf]
      rfl
  · intro h
    constructor
    · rw [fetch_data, if_pos h]
    · simp [fetchErrorShown, h]

/-- Witness for C6: a 404 response produces no data and no reconciler
call; a 200 response produces the parsed body. -/
theorem claim6_witness :
    (resp404.status_code ≠ 200 ∧ fetch_data resp404 = none ∧
      fetchErrorShown resp404 = true ∧ renderPass resp404 = none) ∧
    (resp200.status_code = 200 ∧ fetch_data resp200 = some sampleApiData ∧
      fetchErrorShown resp200 = false) :=
  ⟨⟨by decide, (claim6_fetch_status_gate resp404).1 (by decide)⟩,
   ⟨rfl, (claim6_fetch_status_gate resp200).2 rfl⟩⟩

/-- Claim C7: the identifier sets are built from the string-coerced
keys, the join predicate compares the string coercions of the two keys,
and both Step 3 filters test membership of a coerced key in a coerced
set — every identifier comparison in Steps 2-4 is string-to-string. -/
theorem claim7_string_keyed_comparisons (es : List LeagueEntry)
    (ss : List StandingRecord) :
    standings_ids ss = (ss.map (fun s => pyStr s.league_entry)).toFinset ∧
    entries_ids es = (es.map (fun e => pyStr e.id)).toFinset ∧
    (∀ (s : StandingRecord) (e : LeagueEntry),
      (entryKey e == standingKey s) = (pyStr e.id == pyStr s.league_entry)) ∧
    (∀ s, s ∈ valid_standings es ss ↔
      s ∈ ss ∧ pyStr s.league_entry ∈ entries_ids es) ∧
    (∀ e, e ∈ valid_entries es ss ↔
      e ∈ es ∧ pyStr e.id ∈ standings_ids ss) := by
  refine ⟨rfl, rfl, fun s e => rfl, ?_, ?_⟩
  · intro s
    simp [valid_standings, List.mem_filter, standingKey]
  · intro e
    simp [valid_entries, List.mem_filter, entryKey]

/-- Witness for C7: a standing whose raw key is the string "7" passes
the filter against an entry whose raw id is the number 7 — the
comparison happens after both are coerced to the string "7". -/
theorem claim7_witness :
    standingStrId7 ∈ valid_standings [entryIntId7] [standingStrId7] ∧
    entryIntId7 ∈ valid_entries [entryIntId7] [standingStrId7] :=
  ⟨((claim7_string_keyed_comparisons [entryIntId7] [standingStrId7]).2.2.2.1
      standingStrId7).mpr ⟨by decide, by decide⟩,
   ((claim7_string_keyed_comparisons [entryIntId7] [standingStrId7]).2.2.2.2
      entryIntId7).mpr ⟨by decide, by decide⟩⟩

/-- Counterexample to C8 as stated: a standing whose raw total is the
number -1 joins entry "1" and yields an output row with total -1 < 0 —
nothing in the code clamps a negative numeric total. -/
theorem claim8_counterexample :
    ¬ ∀ r ∈ pipelineRows [sampleEntryA] [negTotalStanding], 0 ≤ r.total := by
  decide

/-- Every reconciled row, with no hypothesis on the inputs, has its
name columns populated and carries its total (after coercion) and
win/loss/draw counts from a source standing record. -/
theorem pipelineRows_fields {es : List LeagueEntry}
    {ss : List StandingRecord} {r : MergedRow Int}
    (hr : r ∈ pipelineRows es ss) :
    r.entry_name.isSome ∧ r.player_first_name.isSome ∧
    r.player_last_name.isSome ∧
    ∃ s ∈ ss, r.total = coerceTotal s.total ∧
      r.matches_won = s.matches_won ∧ r.matches_lost = s.matches_lost ∧
      r.matches_drawn = s.matches_drawn := by
  rw [pipelineRows, List.mem_map] at hr
  obtain ⟨r0, hr0, hrr⟩ := hr
  obtain ⟨s, hsv, e, hev, hk, hre⟩ := mem_merged_rows hr0
  have hss : s ∈ ss := (List.mem_filter.mp (by rwa [valid_standings] at hsv)).1
  subst hrr
  subst hre
  exact ⟨by simp [normalizeRow, joinRow], by simp [normalizeRow, joinRow],
    by simp [normalizeRow, joinRow], s, hss,
    by simp [normalizeRow, joinRow], by simp [normalizeRow, joinRow],
    by simp [normalizeRow, joinRow], by simp [normalizeRow, joinRow]⟩

/-- Claim C8 (amended): unconditionally, every output row has populated
entry-name and player-name columns and carries its total and
win/loss/draw counts from a source standing record; a total that
coerces to a number — negative included — is passed through unchanged;
and the total is ≥ 0 provided every source total coerces to a
non-negative number (values failing coercion count as 0). -/
theorem claim8_output_row_fields (es : List LeagueEntry)
    (ss : List StandingRecord) :
    (∀ r ∈ pipelineRows es ss,
      r.entry_name.isSome ∧ r.player_first_name.isSome ∧
      r.player_last_name.isSome ∧
      ∃ s ∈ ss, r.total = coerceTotal s.total ∧
        r.matches_won = s.matches_won ∧ r.matches_lost = s.matches_lost ∧
        r.matches_drawn = s.matches_drawn) ∧
    (∀ (v : JVal) (n : Int), pyToNumeric v = some n → coerceTotal v = n) ∧
    ((∀ s ∈ ss, 0 ≤ coerceTotal s.total) →
      ∀ r ∈ pipelineRows es ss, 0 ≤ r.total) := by
  refine ⟨fun r hr => pipelineRows_fields hr, ?_, ?_⟩
  · intro v n hv
    rw [coerceTotal, hv]
    rfl
  · intro hpos r hr
    obtain ⟨_, _, _, s, hss, hts, _⟩ := pipelineRows_fields hr
    rw [hts]
    exact hpos s hss

/-- Witness for C8: the negative total -1 flows through unchanged into
the output row of entry "1"; the coercion clause at the numeric value
-1; and the non-negative bound at the total-"50" standing. -/
theorem claim8_witness :
    ((normalizeRow (joinRow negTotalStanding sampleEntryA)).entry_name.isSome ∧
     (normalizeRow (joinRow negTotalStanding sampleEntryA)).player_first_name.isSome ∧
     (normalizeRow (joinRow negTotalStanding sampleEntryA)).player_last_name.isSome ∧
     ∃ s ∈ [negTotalStanding],
       (normalizeRow (joinRow negTotalStanding sampleEntryA)).total
         = coerceTotal s.total ∧
       (normalizeRow (joinRow negTotalStanding sampleEntryA)).matches_won
         = s.matches_won ∧
       (normalizeRow (joinRow negTotalStanding sampleEntryA)).matches_lost
         = s.matches_lost ∧
       (normalizeRow (joinRow negTotalStanding sampleEntryA)).matches_drawn
         = s.matches_drawn) ∧
    (pyToNumeric (JVal.jint (-1)) = some (-1) ∧
     coerceTotal (JVal.jint (-1)) = -1) ∧
    ((∀ s ∈ [sampleStanding1], 0 ≤ coerceTotal s.total) ∧
     0 ≤ (normalizeRow (joinRow sampleStanding1 sampleEntryA)).total) :=
  ⟨(claim8_output_row_fields [sampleEntryA] [negTotalStanding]).1
     (normalizeRow (joinRow negTotalStanding sampleEntryA)) (by decide),
   ⟨by decide,
    (claim8_output_row_fields [sampleEntryA] [negTotalStanding]).2.1
      (JVal.jint (-1)) (-1) (by decide)⟩,
   ⟨by decide,
    (claim8_output_row_fields [sampleEntryA] [sampleStanding1]).2.2 (by decide)
      (normalizeRow (joinRow sampleStanding1 sampleEntryA)) (by decide)⟩⟩

/-- Claim C9: the leader row is the row of maximal `total`, the first in
input order when several rows tie: `idxmax` returns the first position
attaining the maximum, and every strictly earlier row has a strictly
smaller total. -/
theorem claim9_leader_row (rows : List (MergedRow Int)) (h : rows ≠ []) :
    ∃ r, topScorer rows = some r ∧ r ∈ rows ∧
      (∀ q ∈ rows, q.total ≤ r.total) ∧
      (∀ j, j < idxmaxList (rows.map (fun x => x.total)) →
        ∀ q, rows[j]? = some q → q.total < r.total) := by
  obtain ⟨r, h1, h2, _, h4, h5⟩ := topScorer_spec rows h
  exact ⟨r, h1, h2, h4, h5⟩

/-- Witness for C9 on a table with a tie on the maximal total 5. -/
theorem claim9_witness :
    ([flatRow 3, flatRow 5, flatRow 5] ≠ ([] : List (MergedRow Int))) ∧
    ∃ r, topScorer [flatRow 3, flatRow 5, flatRow 5] = some r ∧
      r ∈ [flatRow 3, flatRow 5, flatRow 5] ∧
      (∀ q ∈ [flatRow 3, flatRow 5, flatRow 5], q.total ≤ r.total) ∧
      (∀ j, j < idxmaxList ([flatRow 3, flatRow 5, flatRow 5].map
          (fun x => x.total)) →
        ∀ q, [flatRow 3, flatRow 5, flatRow 5][j]? = some q →
          q.total < r.total) :=
  ⟨by decide, claim9_leader_row [flatRow 3, flatRow 5, flatRow 5] (by decide)⟩

/-- Claim C10: on a successful pass whose reconciled table is non-empty,
the leader is selected (via `topScorer`) exactly when the maximal
normalized total is strictly positive; when every total is ≤ 0 no leader
is selected and the no-valid-data message is shown instead. -/
theorem claim10_leader_only_when_positive (es : List LeagueEntry)
    (ss : List StandingRecord) (out : ReconcileOutput)
    (hok : reconcile es ss = .ok out) (hne : out.rows ≠ []) :
    (0 < seriesMax (out.rows.map (fun r => r.total)) →
      out.leader = topScorer out.rows ∧ out.leader.isSome ∧
      out.noLeaderMsg = false) ∧
    (seriesMax (out.rows.map (fun r => r.total)) ≤ 0 →
      out.leader = none ∧ out.noLeaderMsg = true) := by
  have hout := reconcile_ok_inv hok
  subst hout
  have hne' : reconcileRows es ss ≠ [] := hne
  have hran : mergedRan es ss = true := mergedRan_of_rows_ne_nil hne'
  have hempty : (reconcileRows es ss).isEmpty = false :=
    List.isEmpty_eq_false.mpr hne'
  constructor
  · intro hpos
    have hpos' : 0 < seriesMax ((reconcileRows es ss).map (fun r => r.total)) :=
      hpos
    have hguard : leaderGuard es ss = true := by
      simp [leaderGuard, hempty, hpos']
    refine ⟨?_, ?_, ?_⟩
    · show leaderSelected es ss = topScorer (reconcileRows es ss)
      simp [leaderSelected, hran, hguard]
    · show (leaderSelected es ss).isSome = true
      obtain ⟨r, hr, _⟩ := topScorer_spec (reconcileRows es ss) hne'
      simp [leaderSelected, hran, hguard, hr]
    · show noLeaderMsgShown es ss = false
      simp [noLeaderMsgShown, hguard]
  · intro hle
    have hle' : seriesMax ((reconcileRows es ss).map (fun r => r.total)) ≤ 0 :=
      hle
    have hguard : leaderGuard es ss = false := by
      simp [leaderGuard, hempty, not_lt.mpr hle']
    refine ⟨?_, ?_⟩
    · show leaderSelected es ss = none
      simp [leaderSelected, hguard]
    · show noLeaderMsgShown es ss = true
      simp [noLeaderMsgShown, hran, hguard]

/-- Witness for C10 at entry "1" and the total-"50" standing: the table
is non-empty and its maximal total 50 selects a leader. -/
theorem claim10_witness :
    (reconOutPos.rows ≠ []) ∧
    ((0 < seriesMax (reconOutPos.rows.map (fun r => r.total)) →
      reconOutPos.leader = topScorer reconOutPos.rows ∧
      reconOutPos.leader.isSome ∧ reconOutPos.noLeaderMsg = false) ∧
    (seriesMax (reconOutPos.rows.map (fun r => r.total)) ≤ 0 →
      reconOutPos.leader = none ∧ reconOutPos.noLeaderMsg = true)) :=
  ⟨by decide,
   claim10_leader_only_when_positive [sampleEntryA] [sampleStanding1]
     reconOutPos (reconcile_eq_ok (by decide) (by decide)) (by decide)⟩

end FantasyFooty
